import Mathlib

set_option maxRecDepth 40000

/-!
Shallow embedding of `src/wallet-externsion.ts` (class `DkCardanoWalletExtension`),
a Cardano "login with wallet" signature verifier.

Bytes are modelled as `List Nat`. JavaScript exceptions are modelled with
`Except Err`: the tagged throws of the verifier (`'Payload mismatch'`,
`'Address mismatch'`), the deserialization errors raised by the external
serialization library (`malformedInput`), and the generic runtime errors
arising from use of an `undefined` value (`runtimeError`).

The external collaborators (the spec's Envelope Decoder, Address Codec,
Signature Primitive and key-hash primitive from
`@emurgo/cardano-serialization-lib` / `cardano-message-signing`) are modelled
as concrete executable functions exposing exactly the interface the verifier
consumes; only the properties the verifier relies on (determinism, and
injectivity of the canonical address encoding) are meaningful.
-/

namespace DkCardanoWalletExtension

/-- The failure outcomes observable from `verifySignedMessage`:
the two tagged throws of the verifier, the deserialization errors of the
external library, and generic runtime errors from using an undefined value. -/
inductive Err where
  | payloadMismatch
  | addressMismatch
  | malformedInput
  | runtimeError
deriving DecidableEq, Repr

/-- Equality of `Except` results is decidable when both components are. -/
instance instDecEqExcept {ε α : Type} [DecidableEq ε] [DecidableEq α] :
    DecidableEq (Except ε α) := fun x y =>
  match x, y with
  | .error a, .error b =>
    if h : a = b then .isTrue (by rw [h]) else .isFalse (fun he => h (by injection he))
  | .error _, .ok _ => .isFalse (fun he => Except.noConfusion he)
  | .ok _, .error _ => .isFalse (fun he => Except.noConfusion he)
  | .ok a, .ok b =>
    if h : a = b then .isTrue (by rw [h]) else .isFalse (fun he => h (by injection he))

/-- Model of the external `S.StakeCredential`: a credential is either a
key-hash or a script-hash (the two constructors the chain supports). -/
inductive StakeCredential where
  | keyHash (h : List Nat)
  | scriptHash (h : List Nat)
deriving DecidableEq, Repr

/-- `S.StakeCredential.from_keyhash` of the external address codec. -/
def StakeCredential.from_keyhash (h : List Nat) : StakeCredential :=
  .keyHash h

/-- `StakeCredential.to_keyhash` of the external address codec: `none`
models the JavaScript `undefined` returned for a script-hash credential. -/
def StakeCredential.to_keyhash : StakeCredential → Option (List Nat)
  | .keyHash h => some h
  | .scriptHash _ => none

/-- Model of the external `S.Address`: classified into Base, Reward, or
Other (pointer / enterprise / Byron — kinds the verifier never reconstructs). -/
inductive Address where
  | base (network : Nat) (payment stake : StakeCredential)
  | reward (network : Nat) (stake : StakeCredential)
  | other (network : Nat) (raw : List Nat)
deriving DecidableEq, Repr

/-- `Address.network_id` of the external address codec. -/
def Address.network_id : Address → Nat
  | .base n _ _ => n
  | .reward n _ => n
  | .other n _ => n

/-- Encoding of a credential inside the canonical address form
(tag byte, then length-prefixed hash), injective. -/
def StakeCredential.enc : StakeCredential → List Nat
  | .keyHash h => 0 :: h.length :: h
  | .scriptHash h => 1 :: h.length :: h

/-- Model of `Address.to_bech32` of the external address codec: the canonical
(bech32) form of an address is a pure injective function of the address value
(spec §3: "an address's bech32/canonical string form is a pure function of
its bytes — used as the equality test throughout"); modelled as an injective
byte encoding with a leading kind tag. -/
def Address.to_bech32 : Address → List Nat
  | .base n p s => 0 :: n :: (p.enc ++ s.enc)
  | .reward n s => 1 :: n :: s.enc
  | .other n raw => 2 :: n :: raw

/-- Reads a length-prefixed chunk from a byte list; `none` models a
deserialization failure of the external codec. -/
def decodeChunk : List Nat → Option (List Nat × List Nat)
  | [] => none
  | n :: rest => if n ≤ rest.length then some (rest.take n, rest.drop n) else none

/-- Parses one credential (tag byte then length-prefixed hash). -/
def decodeCred : List Nat → Option (StakeCredential × List Nat)
  | 0 :: rest =>
    match decodeChunk rest with
    | none => none
    | some (h, r) => some (.keyHash h, r)
  | 1 :: rest =>
    match decodeChunk rest with
    | none => none
    | some (h, r) => some (.scriptHash h, r)
  | _ => none

/-- Model of `S.Address.from_bytes` of the external address codec: parses the
byte form of an address; `none` models the thrown deserialization error. -/
def Address.from_bytes : List Nat → Option Address
  | 0 :: n :: rest =>
    match decodeCred rest with
    | none => none
    | some (p, r1) =>
      match decodeCred r1 with
      | none => none
      | some (s, r2) => if r2 = [] then some (.base n p s) else none
  | 1 :: n :: rest =>
    match decodeCred rest with
    | none => none
    | some (s, r1) => if r1 = [] then some (.reward n s) else none
  | 2 :: n :: rest => some (.other n rest)
  | _ => none

/-- Model of the external `S.BaseAddress` (payment credential + stake
credential + network id). -/
structure BaseAddress where
  network : Nat
  payment : StakeCredential
  stake : StakeCredential
deriving DecidableEq, Repr

/-- `S.BaseAddress.from_address`: `none` models the JavaScript `undefined`
returned when the address is not a Base address. -/
def BaseAddress.from_address : Address → Option BaseAddress
  | .base n p s => some ⟨n, p, s⟩
  | _ => none

/-- `S.BaseAddress.new` of the external address codec. -/
def BaseAddress.new (network : Nat) (payment stake : StakeCredential) : BaseAddress :=
  ⟨network, payment, stake⟩

/-- `BaseAddress.stake_cred` accessor. -/
def BaseAddress.stake_cred (b : BaseAddress) : StakeCredential :=
  b.stake

/-- `BaseAddress.to_address` of the external address codec. -/
def BaseAddress.to_address (b : BaseAddress) : Address :=
  .base b.network b.payment b.stake

/-- Model of the external `S.RewardAddress` (stake credential + network id). -/
structure RewardAddress where
  network : Nat
  stake : StakeCredential
deriving DecidableEq, Repr

/-- `S.RewardAddress.new` of the external address codec. -/
def RewardAddress.new (network : Nat) (stake : StakeCredential) : RewardAddress :=
  ⟨network, stake⟩

/-- `RewardAddress.to_address` of the external address codec. -/
def RewardAddress.to_address (r : RewardAddress) : Address :=
  .reward r.network r.stake

/-- Model of the external `S.PublicKey`: the raw Ed25519 verification key. -/
structure PublicKey where
  bytes : List Nat
deriving DecidableEq, Repr

/-- `S.PublicKey.from_bytes`: the external library accepts exactly 32 bytes;
`none` models the thrown deserialization error. -/
def PublicKey.from_bytes (l : List Nat) : Option PublicKey :=
  if l.length = 32 then some ⟨l⟩ else none

/-- Model of `PublicKey.hash` (blake2b-224 key-hash, an external primitive,
spec §2/§3): represented as an injective deterministic function of the key
bytes; the verifier relies only on its determinism. -/
def PublicKey.hash (pk : PublicKey) : List Nat :=
  pk.bytes

/-- Model of the Ed25519 primitive `PublicKey.verify` (external Signature
Primitive, spec §2): an arbitrary concrete boolean function of the key, the
signed bytes and the signature; the verifier only forwards its result. -/
def PublicKey.verify (pk : PublicKey) (data sig : List Nat) : Bool :=
  decide (sig = pk.bytes ++ data)

/-- `S.Ed25519Signature.from_bytes`: the external library accepts exactly
64 bytes; `none` models the thrown deserialization error. -/
def Ed25519Signature.from_bytes (l : List Nat) : Option (List Nat) :=
  if l.length = 64 then some l else none

/-- Model of the external `MS.COSESign1` as consumed by the verifier: the
embedded payload (`payload()`, `none` = absent slot), the byte blob of the
protected header at label `"address"` (`none` = absent), the raw signature
bytes (`signature()`) and the exact signed byte range (`signed_data().to_bytes()`). -/
structure COSESign1 where
  payload : Option (List Nat)
  protectedAddress : Option (List Nat)
  signature : List Nat
  signed_data : List Nat
deriving DecidableEq, Repr

/-- Parses an optional length-prefixed chunk (presence byte 0 = absent,
1 = present). -/
def decodeOpt : List Nat → Option (Option (List Nat) × List Nat)
  | 0 :: rest => some (none, rest)
  | 1 :: rest =>
    match decodeChunk rest with
    | none => none
    | some (l, r) => some (some l, r)
  | _ => none

/-- Model of `MS.COSESign1.from_bytes` (external Envelope Decoder, spec §2):
a length-prefixed stand-in for the CBOR/COSE encoding exposing exactly the
fields the verifier reads; `none` models the thrown deserialization error. -/
def COSESign1.from_bytes (l : List Nat) : Option COSESign1 :=
  match decodeOpt l with
  | none => none
  | some (p, r1) =>
    match decodeOpt r1 with
    | none => none
    | some (a, r2) =>
      match decodeChunk r2 with
      | none => none
      | some (sig, r3) =>
        match decodeChunk r3 with
        | none => none
        | some (sd, r4) => if r4 = [] then some ⟨p, a, sig, sd⟩ else none

/-- Model of the external `MS.COSEKey` as consumed by the verifier: the byte
blob at integer label `-2` (the public-key slot; `none` = absent). -/
structure COSEKey where
  minus2 : Option (List Nat)
deriving DecidableEq, Repr

/-- Model of `MS.COSEKey.from_bytes` (external decoder): `none` models the
thrown deserialization error. -/
def COSEKey.from_bytes (l : List Nat) : Option COSEKey :=
  match decodeOpt l with
  | none => none
  | some (k, r) => if r = [] then some ⟨k⟩ else none

/-- One hex digit of Node's `Buffer.from(·, 'hex')`. -/
def hexDigit (c : Char) : Option Nat :=
  if '0' ≤ c ∧ c ≤ '9' then some (c.toNat - 48)
  else if 'a' ≤ c ∧ c ≤ 'f' then some (c.toNat - 87)
  else if 'A' ≤ c ∧ c ≤ 'F' then some (c.toNat - 55)
  else none

/-- Pair-wise hex decoding; like Node's `Buffer.from(·, 'hex')` it never
fails: it truncates at the first invalid pair or odd tail. -/
def hexPairs : List Char → List Nat
  | c1 :: c2 :: rest =>
    match hexDigit c1, hexDigit c2 with
    | some hi, some lo => (16 * hi + lo) :: hexPairs rest
    | _, _ => []
  | _ => []

/-- `Buffer.from(s, 'hex')`: total, truncating hex decoding. -/
def hexDecode (s : String) : List Nat :=
  hexPairs s.data

/-- `Buffer.compare` on byte lists: three-way lexicographic comparison,
`0` exactly on byte-for-byte equality. -/
def listCompare : List Nat → List Nat → Int
  | [], [] => 0
  | [], _ :: _ => -1
  | _ :: _, [] => 1
  | a :: as, b :: bs =>
    if a < b then -1 else if b < a then 1 else listCompare as bs

/-- `verifyPayload` (source lines 61–63): returns
`Buffer.from(payloadCose).compare(Buffer.from(payload, 'hex'))`.
`payloadCose = none` models the `undefined` produced by an absent payload
slot, on which `Buffer.from` throws a generic runtime `TypeError`. -/
def verifyPayload (payload : String) (payloadCose : Option (List Nat)) : Except Err Int :=
  match payloadCose with
  | none => .error .runtimeError
  | some pc => .ok (listCompare pc (hexDecode payload))

/-- The Base-address block of `verifyAddress` (source lines 74–94): the body
of the inner `try`; `.error` models a thrown exception that its `catch`
swallows (`from_address` returning `undefined` and then `stake_cred()` on
`undefined`, or `to_keyhash()` returning `undefined` and then
`from_keyhash(undefined)` throwing). -/
def basePath (checkAddress addressCose : Address) (publicKeyCose : PublicKey) :
    Except Err Bool :=
  match BaseAddress.from_address addressCose with
  | none => .error .runtimeError
  | some baseAddress =>
    let paymentKeyHash := publicKeyCose.hash
    match baseAddress.stake_cred.to_keyhash with
    | none => .error .runtimeError
    | some stakeKeyHash =>
      let reconstructedAddress := BaseAddress.new checkAddress.network_id
        (StakeCredential.from_keyhash paymentKeyHash)
        (StakeCredential.from_keyhash stakeKeyHash)
      if checkAddress.to_bech32 ≠ reconstructedAddress.to_address.to_bech32 then
        .ok false
      else
        .ok true

/-- The Reward-address block of `verifyAddress` (source lines 97–114): the
body of the second inner `try`. -/
def rewardPath (checkAddress : Address) (publicKeyCose : PublicKey) :
    Except Err Bool :=
  let stakeKeyHash := publicKeyCose.hash
  let reconstructedAddress := RewardAddress.new checkAddress.network_id
    (StakeCredential.from_keyhash stakeKeyHash)
  if checkAddress.to_bech32 ≠ reconstructedAddress.to_address.to_bech32 then
    .ok false
  else
    .ok true

/-- `verifyAddress` (source lines 65–121): decodes the claimed address,
compares canonical forms, then tries the Base path and, only if that path
threw (was caught), the Reward path; every exception path (outer and inner
`catch`) ends in `return false`, so the result is a plain `Bool`. -/
def verifyAddress (address : String) (addressCose : Address)
    (publicKeyCose : PublicKey) : Bool :=
  match Address.from_bytes (hexDecode address) with
  | none => false
  | some checkAddress =>
    if addressCose.to_bech32 ≠ checkAddress.to_bech32 then
      false
    else
      match basePath checkAddress addressCose publicKeyCose with
      | .ok b => b
      | .error _ =>
        match rewardPath checkAddress publicKeyCose with
        | .ok b => b
        | .error _ => false

/-- `verifySignedMessage` (source lines 22–58), step for step:
decode the envelope; run the payload check (`if (verifyPayload(...)) throw
'Payload mismatch'` — the compare result is truthy exactly when nonzero);
read the `"address"` protected header and decode it; decode the COSE key,
read slot `-2` and build the public key; run `verifyAddress` and throw
`'Address mismatch'` on `false`; finally decode the signature and return the
boolean result of the Ed25519 primitive. -/
def verifySignedMessage (address payload coseSign1Hex coseKeyHex : String) :
    Except Err Bool :=
  match COSESign1.from_bytes (hexDecode coseSign1Hex) with
  | none => .error .malformedInput
  | some coseSign1 =>
    match verifyPayload payload coseSign1.payload with
    | .error e => .error e
    | .ok cmp =>
      if cmp ≠ 0 then
        .error .payloadMismatch
      else
        match coseSign1.protectedAddress with
        | none => .error .runtimeError
        | some headerBytes =>
          match Address.from_bytes headerBytes with
          | none => .error .malformedInput
          | some addressCose =>
            match COSEKey.from_bytes (hexDecode coseKeyHex) with
            | none => .error .malformedInput
            | some coseKey =>
              match coseKey.minus2 with
              | none => .error .runtimeError
              | some publicKeyBytes =>
                match PublicKey.from_bytes publicKeyBytes with
                | none => .error .malformedInput
                | some publicKeyCose =>
                  if ¬ verifyAddress address addressCose publicKeyCose then
                    .error .addressMismatch
                  else
                    match Ed25519Signature.from_bytes coseSign1.signature with
                    | none => .error .malformedInput
                    | some signature =>
                      .ok (publicKeyCose.verify coseSign1.signed_data signature)

/-! Concrete sample inputs used to evaluate the verifier on closed terms:
a 32-byte public key, a Base address whose payment credential is that key's
hash and whose stake key-hash is `[9]`, an envelope embedding payload `0xaa`
and that address, and the matching COSE key material. -/

/-- A concrete 32-byte public-key byte string. -/
def sampleKeyBytes : List Nat := List.replicate 32 7

/-- The public key built from `sampleKeyBytes`. -/
def samplePk : PublicKey := ⟨sampleKeyBytes⟩

/-- Byte form of the sample Base address. -/
def sampleAddrBytes : List Nat := [0, 0, 0, 32] ++ sampleKeyBytes ++ [0, 1, 9]

/-- The sample Base address: network 0, payment credential = hash of
`samplePk`, stake key-hash `[9]`. -/
def sampleAddr : Address := .base 0 (.keyHash sampleKeyBytes) (.keyHash [9])

/-- Hex encoding of `sampleAddrBytes`. -/
def sampleAddressHex : String :=
  "00000020" ++ "0707070707070707070707070707070707070707070707070707070707070707"
    ++ "000109"

/-- Hex encoding of a sample envelope: payload `[0xaa]`, protected
`"address"` header = `sampleAddrBytes`, a 64-byte signature and a 32-byte
signed range on which the modelled primitive accepts the signature. -/
def sampleEnvHex : String :=
  "0101aa0127" ++ "00000020"
    ++ "0707070707070707070707070707070707070707070707070707070707070707"
    ++ "000109" ++ "40"
    ++ "0707070707070707070707070707070707070707070707070707070707070707"
    ++ "0101010101010101010101010101010101010101010101010101010101010101"
    ++ "20"
    ++ "0101010101010101010101010101010101010101010101010101010101010101"

/-- Hex encoding of the sample COSE key material (slot `-2` = `sampleKeyBytes`). -/
def sampleCoseKeyHex : String :=
  "0120" ++ "0707070707070707070707070707070707070707070707070707070707070707"

/-- The structured envelope that `sampleEnvHex` decodes to. -/
def sampleEnv : COSESign1 :=
  ⟨some [170], some sampleAddrBytes, sampleKeyBytes ++ List.replicate 32 1,
    List.replicate 32 1⟩

/-! Theorems. -/

/-- `Buffer.compare` returns `0` exactly on byte-for-byte equality. -/
theorem listCompare_eq_zero_iff (a b : List Nat) : listCompare a b = 0 ↔ a = b := by
  induction a generalizing b with
  | nil => cases b <;> simp [listCompare]
  | cons x xs ih =>
    cases b with
    | nil => simp [listCompare]
    | cons y ys =>
      simp only [listCompare]
      by_cases h1 : x < y
      · simp only [if_pos h1]
        constructor
        · intro h0; exact absurd h0 (by norm_num)
        · intro he; injection he with he1 he2; omega
      · simp only [if_neg h1]
        by_cases h2 : y < x
        · simp only [if_pos h2]
          constructor
          · intro h0; exact absurd h0 (by norm_num)
          · intro he; injection he with he1 he2; omega
        · simp only [if_neg h2]
          have hxy : x = y := by omega
          subst hxy
          rw [ih ys]
          simp

/-- When the claimed-address bytes fail to decode, `verifyAddress` reports
`false` (the outer `catch` swallows the thrown deserialization error). -/
theorem verifyAddress_of_decode_none (address : String) (addressCose : Address)
    (pk : PublicKey) (h : Address.from_bytes (hexDecode address) = none) :
    verifyAddress address addressCose pk = false := by
  unfold verifyAddress
  rw [h]

/-- C1: whenever `verifySignedMessage` returns a boolean verdict at all, the
payload check and the address consistency check have both passed (so the
signature primitive runs only after them), and the verdict is exactly the
boolean result of the Ed25519 primitive on the envelope's signed range and
signature; in particular the payload and address checks can only abort with a
thrown error, never produce a `false` return. -/
theorem verifySignedMessage_verdict_is_signature_result
    (address payload coseSign1Hex coseKeyHex : String) (b : Bool)
    (h : verifySignedMessage address payload coseSign1Hex coseKeyHex = .ok b) :
    ∃ env addressCose publicKeyCose sig,
      COSESign1.from_bytes (hexDecode coseSign1Hex) = some env ∧
      env.payload = some (hexDecode payload) ∧
      (∃ headerBytes, env.protectedAddress = some headerBytes ∧
        Address.from_bytes headerBytes = some addressCose) ∧
      (∃ coseKey publicKeyBytes,
        COSEKey.from_bytes (hexDecode coseKeyHex) = some coseKey ∧
        coseKey.minus2 = some publicKeyBytes ∧
        PublicKey.from_bytes publicKeyBytes = some publicKeyCose) ∧
      verifyAddress address addressCose publicKeyCose = true ∧
      Ed25519Signature.from_bytes env.signature = some sig ∧
      b = publicKeyCose.verify env.signed_data sig := by
  unfold verifySignedMessage at h
  split at h
  · exact Except.noConfusion h
  rename_i env henv
  split at h
  · exact Except.noConfusion h
  rename_i cmp hcmp
  split at h
  · exact Except.noConfusion h
  rename_i hc0
  split at h
  · exact Except.noConfusion h
  rename_i headerBytes hhb
  split at h
  · exact Except.noConfusion h
  rename_i addressCose haddr
  split at h
  · exact Except.noConfusion h
  rename_i coseKey hkey
  split at h
  · exact Except.noConfusion h
  rename_i publicKeyBytes hpkb
  split at h
  · exact Except.noConfusion h
  rename_i publicKeyCose hpk
  split at h
  · exact Except.noConfusion h
  rename_i hva
  split at h
  · exact Except.noConfusion h
  rename_i sig hsig
  injection h with hb
  have hcmp0 : cmp = 0 := by
    by_contra hne
    exact hc0 hne
  have hpayload : env.payload = some (hexDecode payload) := by
    cases hp : env.payload with
    | none =>
      rw [hp] at hcmp
      simp only [verifyPayload] at hcmp
      exact Except.noConfusion hcmp
    | some pc =>
      rw [hp] at hcmp
      simp only [verifyPayload] at hcmp
      injection hcmp with hcmp2
      rw [hcmp0] at hcmp2
      exact congrArg some ((listCompare_eq_zero_iff pc (hexDecode payload)).mp hcmp2)
  refine ⟨env, addressCose, publicKeyCose, sig, henv, hpayload,
    ⟨headerBytes, hhb, haddr⟩, ⟨coseKey, publicKeyBytes, hkey, hpkb, hpk⟩,
    ?_, hsig, hb.symm⟩
  by_contra hfalse
  exact hva (by simpa using hfalse)

/-- Witness for C1 at a concrete successful verification. -/
theorem verifySignedMessage_verdict_is_signature_result_witness :
    verifySignedMessage sampleAddressHex "aa" sampleEnvHex sampleCoseKeyHex = .ok true ∧
    (∃ env addressCose publicKeyCose sig,
      COSESign1.from_bytes (hexDecode sampleEnvHex) = some env ∧
      env.payload = some (hexDecode "aa") ∧
      (∃ headerBytes, env.protectedAddress = some headerBytes ∧
        Address.from_bytes headerBytes = some addressCose) ∧
      (∃ coseKey publicKeyBytes,
        COSEKey.from_bytes (hexDecode sampleCoseKeyHex) = some coseKey ∧
        coseKey.minus2 = some publicKeyBytes ∧
        PublicKey.from_bytes publicKeyBytes = some publicKeyCose) ∧
      verifyAddress sampleAddressHex addressCose publicKeyCose = true ∧
      Ed25519Signature.from_bytes env.signature = some sig ∧
      true = publicKeyCose.verify env.signed_data sig) :=
  ⟨by decide, verifySignedMessage_verdict_is_signature_result
    sampleAddressHex "aa" sampleEnvHex sampleCoseKeyHex true (by decide)⟩

/-- `Buffer.compare` of a byte list with itself is `0`. -/
theorem listCompare_self (a : List Nat) : listCompare a a = 0 :=
  (listCompare_eq_zero_iff a a).mpr rfl

/-- C2: the payload check passes exactly on byte-for-byte equality of the
embedded payload with the hex-decoded caller payload: on equality
`verifySignedMessage` never reports `PayloadMismatch`, and on any difference
(including equal length with one differing byte) it reports `PayloadMismatch`
regardless of every later input — so before any later step can run. -/
theorem payload_check_exact
    (address payload coseSign1Hex coseKeyHex : String) (env : COSESign1)
    (henv : COSESign1.from_bytes (hexDecode coseSign1Hex) = some env) :
    (env.payload = some (hexDecode payload) →
      verifySignedMessage address payload coseSign1Hex coseKeyHex ≠
        .error .payloadMismatch) ∧
    (∀ pc, env.payload = some pc → pc ≠ hexDecode payload →
      verifySignedMessage address payload coseSign1Hex coseKeyHex =
        .error .payloadMismatch) := by
  constructor
  · intro hp hcontra
    simp only [verifySignedMessage, henv, hp, verifyPayload, listCompare_self] at hcontra
    rw [if_neg (by norm_num)] at hcontra
    repeat' split at hcontra
    all_goals
      first
        | exact Except.noConfusion hcontra
        | (injection hcontra with hx; exact Err.noConfusion hx)
  · intro pc hp hne
    simp only [verifySignedMessage, henv, hp, verifyPayload]
    rw [if_pos (fun h0 => hne ((listCompare_eq_zero_iff pc (hexDecode payload)).mp h0))]

/-- Witness for C2: the sample envelope embeds payload `[0xaa]`; calling with
payload hex `"ab"` (same length, one differing byte) reports `PayloadMismatch`. -/
theorem payload_check_exact_witness :
    verifySignedMessage sampleAddressHex "ab" sampleEnvHex sampleCoseKeyHex =
      .error .payloadMismatch :=
  (payload_check_exact sampleAddressHex "ab" sampleEnvHex sampleCoseKeyHex sampleEnv
    (by decide)).2 [170] (by decide) (by decide)

/-- C3: if the canonical (bech32) form of the embedded address differs from
that of the address decoded from the claimed-address hex, `verifyAddress`
returns `false` immediately, for every public key. -/
theorem verifyAddress_canonical_mismatch
    (address : String) (addressCose : Address) (pk : PublicKey)
    (checkAddress : Address)
    (h1 : Address.from_bytes (hexDecode address) = some checkAddress)
    (h2 : addressCose.to_bech32 ≠ checkAddress.to_bech32) :
    verifyAddress address addressCose pk = false := by
  simp only [verifyAddress, h1]
  rw [if_pos h2]

/-- Witness for C3 at a concrete mismatching pair. -/
theorem verifyAddress_canonical_mismatch_witness :
    verifyAddress sampleAddressHex (.reward 0 (.keyHash [1])) samplePk = false :=
  verifyAddress_canonical_mismatch sampleAddressHex (.reward 0 (.keyHash [1]))
    samplePk sampleAddr (by decide) (by decide)

/-- C4: Base-address round trip — when claimed and embedded address are the
Base address of network `N` with payment credential the hash of the public
key and stake key-hash `H`, `verifyAddress` returns `true`. -/
theorem verifyAddress_base_roundtrip
    (address : String) (pk : PublicKey) (N : Nat) (H : List Nat)
    (h : Address.from_bytes (hexDecode address) =
      some (.base N (.keyHash pk.hash) (.keyHash H))) :
    verifyAddress address (.base N (.keyHash pk.hash) (.keyHash H)) pk = true := by
  simp [verifyAddress, h, basePath, BaseAddress.from_address, BaseAddress.stake_cred,
    StakeCredential.to_keyhash, BaseAddress.new, BaseAddress.to_address,
    Address.network_id, StakeCredential.from_keyhash]

/-- Witness for C4 at the sample Base address and key. -/
theorem verifyAddress_base_roundtrip_witness :
    verifyAddress sampleAddressHex
      (.base 0 (.keyHash samplePk.hash) (.keyHash [9])) samplePk = true :=
  verifyAddress_base_roundtrip sampleAddressHex samplePk 0 [9] (by decide)

/-- C5: Reward-address round trip — when claimed and embedded address are the
Reward address of network `N` with stake credential the hash of the public
key, `verifyAddress` returns `true` (the Base path throws on the `undefined`
returned by `from_address`, is caught, and the Reward path matches). -/
theorem verifyAddress_reward_roundtrip
    (address : String) (pk : PublicKey) (N : Nat)
    (h : Address.from_bytes (hexDecode address) =
      some (.reward N (.keyHash pk.hash))) :
    verifyAddress address (.reward N (.keyHash pk.hash)) pk = true := by
  simp [verifyAddress, h, basePath, BaseAddress.from_address, rewardPath,
    RewardAddress.new, RewardAddress.to_address, Address.network_id,
    StakeCredential.from_keyhash]

/-- Witness for C5 at a concrete Reward address built from the sample key. -/
theorem verifyAddress_reward_roundtrip_witness :
    verifyAddress
      ("01000020" ++ "0707070707070707070707070707070707070707070707070707070707070707")
      (.reward 0 (.keyHash samplePk.hash)) samplePk = true :=
  verifyAddress_reward_roundtrip
    ("01000020" ++ "0707070707070707070707070707070707070707070707070707070707070707")
    samplePk 0 (by decide)

/-- C6: when the embedded address is interpreted as a Base address (key-hash
stake credential) and the reconstructed Base address's canonical form differs
from the claimed address's canonical form, the Base block concludes `false`
and `verifyAddress` returns `false`; by the structure of `verifyAddress` the
Reward block runs only when the Base block threw, so there is no fallback. -/
theorem verifyAddress_base_mismatch_no_fallback
    (address : String) (pk : PublicKey) (checkAddress : Address)
    (n : Nat) (p : StakeCredential) (sk : List Nat)
    (h1 : Address.from_bytes (hexDecode address) = some checkAddress)
    (h2 : (Address.base n p (.keyHash sk)).to_bech32 = checkAddress.to_bech32)
    (h3 : checkAddress.to_bech32 ≠
      (BaseAddress.new checkAddress.network_id
        (StakeCredential.from_keyhash pk.hash)
        (StakeCredential.from_keyhash sk)).to_address.to_bech32) :
    basePath checkAddress (.base n p (.keyHash sk)) pk = .ok false ∧
    verifyAddress address (.base n p (.keyHash sk)) pk = false := by
  have hbase : basePath checkAddress (.base n p (.keyHash sk)) pk = .ok false := by
    simp only [basePath, BaseAddress.from_address, BaseAddress.stake_cred,
      StakeCredential.to_keyhash]
    rw [if_pos h3]
  refine ⟨hbase, ?_⟩
  simp only [verifyAddress, h1]
  rw [if_neg (not_ne_iff.mpr h2), hbase]

/-- Witness for C6: payment credential `[5]` differs from the sample key's
hash, so reconstruction mismatches and the Base block reports `false`. -/
theorem verifyAddress_base_mismatch_no_fallback_witness :
    basePath (Address.base 0 (.keyHash [5]) (.keyHash [9]))
      (Address.base 0 (.keyHash [5]) (.keyHash [9])) samplePk = .ok false ∧
    verifyAddress "0000000105000109"
      (Address.base 0 (.keyHash [5]) (.keyHash [9])) samplePk = false :=
  verifyAddress_base_mismatch_no_fallback "0000000105000109" samplePk
    (Address.base 0 (.keyHash [5]) (.keyHash [9])) 0 (.keyHash [5]) [9]
    (by decide) (by decide) (by decide)

/-- C7: `verifyAddress` is total over its boolean result — a claimed address
whose bytes fail to decode yields `false` (the outer `catch`), and an
embedded address that is neither Base nor Reward yields `false` (the Base
block throws and the Reward reconstruction can never match it), never a
propagated exception (the return type is a plain `Bool`). -/
theorem verifyAddress_total_negative :
    (∀ (address : String) (addressCose : Address) (pk : PublicKey),
      Address.from_bytes (hexDecode address) = none →
      verifyAddress address addressCose pk = false) ∧
    (∀ (address : String) (pk : PublicKey) (n : Nat) (raw : List Nat),
      verifyAddress address (.other n raw) pk = false) := by
  constructor
  · exact fun a ac pk h => verifyAddress_of_decode_none a ac pk h
  · intro address pk n raw
    cases hd : Address.from_bytes (hexDecode address) with
    | none => exact verifyAddress_of_decode_none _ _ _ hd
    | some checkAddress =>
      simp only [verifyAddress, hd]
      by_cases hca : (Address.other n raw).to_bech32 = checkAddress.to_bech32
      · rw [if_neg (not_ne_iff.mpr hca)]
        simp only [basePath, BaseAddress.from_address, rewardPath]
        rw [if_pos ?hne]
        case hne =>
          intro heq
          rw [← hca] at heq
          simp [Address.to_bech32, RewardAddress.new, RewardAddress.to_address] at heq
      · rw [if_pos hca]

/-- Witness for C7: an undecodable claimed address, and an `Other`-kind
embedded address, both yield `false`. -/
theorem verifyAddress_total_negative_witness :
    verifyAddress "zz" (.other 0 [1]) samplePk = false ∧
    verifyAddress "0200aa" (.other 0 [170]) samplePk = false :=
  ⟨verifyAddress_total_negative.1 "zz" (.other 0 [1]) samplePk (by decide),
   verifyAddress_total_negative.2 "0200aa" samplePk 0 [170]⟩

/-- C8, counterexample to the claim as stated: the claimed-address hex `""`
fails to decode into an `Address`, yet `verifySignedMessage` reports
`AddressMismatch` — not a MalformedInput-kind error — because `verifyAddress`
swallows the decoding failure into `false` (source line 67 inside the
`try`/`catch`, line 120) and the caller turns `false` into the
`'Address mismatch'` throw (source lines 50–52). -/
theorem malformed_claimed_address_reported_as_mismatch :
    Address.from_bytes (hexDecode "") = none ∧
    verifySignedMessage "" "aa" sampleEnvHex sampleCoseKeyHex =
      .error .addressMismatch ∧
    verifySignedMessage "" "aa" sampleEnvHex sampleCoseKeyHex ≠
      .error .malformedInput :=
  ⟨by decide, by decide, by decide⟩

/-- C8 as amended: structural decoding failures of the envelope, of the
embedded address header, and of the key material each surface the distinct
`malformedInput` error — never a mismatch verdict — but a claimed-address
hex that fails to decode is reported as `AddressMismatch`, not as a
malformed-input error. -/
theorem structural_error_taxonomy
    (address payload coseSign1Hex coseKeyHex : String) :
    (COSESign1.from_bytes (hexDecode coseSign1Hex) = none →
      verifySignedMessage address payload coseSign1Hex coseKeyHex =
        .error .malformedInput) ∧
    (∀ env headerBytes,
      COSESign1.from_bytes (hexDecode coseSign1Hex) = some env →
      env.payload = some (hexDecode payload) →
      env.protectedAddress = some headerBytes →
      Address.from_bytes headerBytes = none →
      verifySignedMessage address payload coseSign1Hex coseKeyHex =
        .error .malformedInput) ∧
    (∀ env headerBytes addressCose,
      COSESign1.from_bytes (hexDecode coseSign1Hex) = some env →
      env.payload = some (hexDecode payload) →
      env.protectedAddress = some headerBytes →
      Address.from_bytes headerBytes = some addressCose →
      COSEKey.from_bytes (hexDecode coseKeyHex) = none →
      verifySignedMessage address payload coseSign1Hex coseKeyHex =
        .error .malformedInput) ∧
    (∀ env headerBytes addressCose coseKey publicKeyBytes,
      COSESign1.from_bytes (hexDecode coseSign1Hex) = some env →
      env.payload = some (hexDecode payload) →
      env.protectedAddress = some headerBytes →
      Address.from_bytes headerBytes = some addressCose →
      COSEKey.from_bytes (hexDecode coseKeyHex) = some coseKey →
      coseKey.minus2 = some publicKeyBytes →
      PublicKey.from_bytes publicKeyBytes = none →
      verifySignedMessage address payload coseSign1Hex coseKeyHex =
        .error .malformedInput) ∧
    (∀ env headerBytes addressCose coseKey publicKeyBytes publicKeyCose,
      COSESign1.from_bytes (hexDecode coseSign1Hex) = some env →
      env.payload = some (hexDecode payload) →
      env.protectedAddress = some headerBytes →
      Address.from_bytes headerBytes = some addressCose →
      COSEKey.from_bytes (hexDecode coseKeyHex) = some coseKey →
      coseKey.minus2 = some publicKeyBytes →
      PublicKey.from_bytes publicKeyBytes = some publicKeyCose →
      Address.from_bytes (hexDecode address) = none →
      verifySignedMessage address payload coseSign1Hex coseKeyHex =
        .error .addressMismatch) := by
  refine ⟨?_, ?_, ?_, ?_, ?_⟩
  · intro h
    simp [verifySignedMessage, h]
  · intro env headerBytes henv hp hhb hab
    simp [verifySignedMessage, henv, verifyPayload, hp, listCompare_self, hhb, hab]
  · intro env headerBytes addressCose henv hp hhb hab hkey
    simp [verifySignedMessage, henv, verifyPayload, hp, listCompare_self, hhb, hab,
      hkey]
  · intro env headerBytes addressCose coseKey publicKeyBytes henv hp hhb hab hkey
      hm2 hpk
    simp [verifySignedMessage, henv, verifyPayload, hp, listCompare_self, hhb, hab,
      hkey, hm2, hpk]
  · intro env headerBytes addressCose coseKey publicKeyBytes publicKeyCose henv hp
      hhb hab hkey hm2 hpk hnone
    simp [verifySignedMessage, henv, verifyPayload, hp, listCompare_self, hhb, hab,
      hkey, hm2, hpk,
      verifyAddress_of_decode_none address addressCose publicKeyCose hnone]

/-- Witness for C8 as amended: a malformed envelope surfaces
`malformedInput`; an undecodable claimed address with otherwise valid inputs
surfaces `AddressMismatch`. -/
theorem structural_error_taxonomy_witness :
    verifySignedMessage "" "aa" "ff" "" = .error .malformedInput ∧
    verifySignedMessage "" "aa" sampleEnvHex sampleCoseKeyHex =
      .error .addressMismatch :=
  ⟨(structural_error_taxonomy "" "aa" "ff" "").1 (by decide),
   (structural_error_taxonomy "" "aa" sampleEnvHex sampleCoseKeyHex).2.2.2.2
     sampleEnv sampleAddrBytes sampleAddr ⟨some sampleKeyBytes⟩ sampleKeyBytes
     samplePk (by decide) (by decide) (by decide) (by decide) (by decide)
     (by decide) (by decide) (by decide)⟩

/-- C9: an embedded Base address whose stake credential is a script hash does
not fail the check outright — the Base block throws on
`from_keyhash(undefined)` (modelled `.error .runtimeError`), the throw is
caught, and `verifyAddress`'s result is exactly the Reward block's result. -/
theorem base_script_stake_falls_through
    (address : String) (pk : PublicKey) (checkAddress : Address)
    (n : Nat) (p : StakeCredential) (sh : List Nat)
    (h1 : Address.from_bytes (hexDecode address) = some checkAddress)
    (h2 : (Address.base n p (.scriptHash sh)).to_bech32 = checkAddress.to_bech32) :
    basePath checkAddress (.base n p (.scriptHash sh)) pk = .error .runtimeError ∧
    verifyAddress address (.base n p (.scriptHash sh)) pk =
      (match rewardPath checkAddress pk with
        | .ok b => b
        | .error _ => false) := by
  have hbase : basePath checkAddress (.base n p (.scriptHash sh)) pk =
      .error .runtimeError := by
    simp [basePath, BaseAddress.from_address, BaseAddress.stake_cred,
      StakeCredential.to_keyhash]
  refine ⟨hbase, ?_⟩
  simp only [verifyAddress, h1]
  rw [if_neg (not_ne_iff.mpr h2), hbase]

/-- Witness for C9 at a concrete Base address with a script-hash stake
credential. -/
theorem base_script_stake_falls_through_witness :
    basePath (Address.base 0 (.keyHash [5]) (.scriptHash [9]))
      (Address.base 0 (.keyHash [5]) (.scriptHash [9])) samplePk =
        .error .runtimeError ∧
    verifyAddress "0000000105010109"
      (Address.base 0 (.keyHash [5]) (.scriptHash [9])) samplePk =
      (match rewardPath (Address.base 0 (.keyHash [5]) (.scriptHash [9])) samplePk with
        | .ok b => b
        | .error _ => false) :=
  base_script_stake_falls_through "0000000105010109" samplePk
    (Address.base 0 (.keyHash [5]) (.scriptHash [9])) 0 (.keyHash [5]) [9]
    (by decide) (by decide)

/-- C10: an envelope that decodes with an absent payload slot makes
`verifySignedMessage` fail with the generic runtime error of
`Buffer.from(undefined)` — not `false` and none of the tagged failures. -/
theorem missing_payload_generic_runtime_error
    (address payload coseSign1Hex coseKeyHex : String) (env : COSESign1)
    (h1 : COSESign1.from_bytes (hexDecode coseSign1Hex) = some env)
    (h2 : env.payload = none) :
    verifySignedMessage address payload coseSign1Hex coseKeyHex =
      .error .runtimeError := by
  simp [verifySignedMessage, h1, h2, verifyPayload]

/-- Witness for C10 at a concrete envelope with no payload. -/
theorem missing_payload_generic_runtime_error_witness :
    verifySignedMessage "" "" "00000000" "" = .error .runtimeError :=
  missing_payload_generic_runtime_error "" "" "00000000" ""
    ⟨none, none, [], []⟩ (by decide) rfl

end DkCardanoWalletExtension
